import Mathlib

/-!
Shallow embedding of the source-resolution engine of `providers.py`
(AutoWallpaper).  Network interaction is modelled by explicit environment
functions (`searchEnv`, `dlEnv`, …): each environment maps a request to either
a transport failure (`Except.error ()`, covering connection errors, timeouts,
invalid JSON and client-side URL validation) or the decoded response fields the
Python code actually reads.  `random.randint` / `random.choice` /
`random.sample` draws and the completion order of concurrent futures are passed
in as explicit parameters.  Each download function additionally returns the
list of HTTP requests it issued, in order.
-/

set_option autoImplicit false
set_option linter.unusedVariables false

namespace AutoWallpaper

/-- Image payloads are raw byte strings, modelled as lists of byte values. -/
abbrev Bytes := List Nat

/-- The distinguishable kinds of `RuntimeError` raised in `providers.py`,
keyed by the raise sites. -/
inductive PyErr where
  /-- "… API_KEY not set …" raised before any request. -/
  | authMissing
  /-- "No images found …" / "No objects found …" / "No results found …". -/
  | notFound
  /-- "Unexpected … API response format." (KeyError / IndexError). -/
  | unexpectedFormat
  /-- Connection error, timeout, bad JSON or non-success HTTP status
  (raised by `_fetch_json` / `_download_bytes`). -/
  | networkError
  /-- The Met: "Failed to find a valid image after parallel checks." -/
  | noValidCandidate
  /-- "No image URL returned." -/
  | noImageUrl
  /-- Meta-provider: "No other providers available." -/
  | noProviders
  deriving DecidableEq, Repr

/-- Python `str.lower()`: character-by-character lowercasing (all the
category/mood strings the repository handles are ASCII). -/
def strLower (s : String) : String :=
  String.mk (s.toList.map Char.toLower)

/-- Does the character list start with the given pattern?  (Helper for the
substring and suffix tests below.) -/
def startsWithChars : List Char → List Char → Bool
  | [], _ => true
  | _ :: _, [] => false
  | p :: ps, c :: cs => p = c && startsWithChars ps cs

/-- Does the pattern occur contiguously anywhere in the character list? -/
def charsContain (needle : List Char) : List Char → Bool
  | [] => startsWithChars needle []
  | c :: cs => startsWithChars needle (c :: cs) || charsContain needle cs

/-- Python `key in haystack` on strings: contiguous substring test. -/
def strContains (haystack needle : String) : Bool :=
  charsContain needle.toList haystack.toList

/-- One step of `str.split(sep)` on character lists. -/
def splitChar (sep : Char) : List Char → List (List Char)
  | [] => [[]]
  | c :: cs =>
    match splitChar sep cs with
    | [] => if c = sep then [[], []] else [[c]]
    | r :: rs => if c = sep then [] :: r :: rs else (c :: r) :: rs

/-- Python `s.split(sep)` for a one-character separator (the only separator
used by the source is `"x"`). -/
def strSplitOn (s : String) (sep : Char) : List String :=
  (splitChar sep s.toList).map String.mk

/-- Python `s.endswith(suffix)`. -/
def strEndsWith (s suffix : String) : Bool :=
  startsWithChars suffix.toList.reverse s.toList.reverse

/-- Python truthiness of an optional string (`None` and `""` are falsy). -/
def strTruthy : Option String → Bool
  | none => false
  | some s => s ≠ ""

/-- Python `a or b` on optional strings: `a` if truthy, otherwise `b` as-is. -/
def pyOr (a b : Option String) : Option String :=
  if strTruthy a then a else b

/-- `random.choice` on the non-empty list `a :: l`, the random draw supplied
as an index `i`; the element at position `i % length` is returned, so a
uniformly distributed draw selects uniformly among the elements. -/
def pyChoice {α : Type} (a : α) (l : List α) (i : Nat) : α :=
  (a :: l).getD (i % (a :: l).length) a

/-- Python `dict.get` on an association list (keys of a real dict are unique;
the first binding wins). -/
def dictGet {α : Type} : List (String × α) → String → Option α
  | [], _ => none
  | (k, v) :: rest, key => if k = key then some v else dictGet rest key

theorem pyChoice_mem {α : Type} (a : α) (l : List α) (i : Nat) :
    pyChoice a l i ∈ a :: l := by
  unfold pyChoice
  have h : i % (a :: l).length < (a :: l).length :=
    Nat.mod_lt _ (by simp)
  rw [List.getD_eq_getElem _ _ h]
  exact List.getElem_mem _

theorem dictGet_mem {α : Type} {d : List (String × α)} {k : String} {v : α}
    (h : dictGet d k = some v) : (k, v) ∈ d := by
  induction d with
  | nil => simp [dictGet] at h
  | cons kv rest ih =>
    rw [dictGet] at h
    by_cases hk : kv.1 = k
    · rw [if_pos hk] at h
      have hkv : (k, v) = kv := by
        cases kv
        simp only [Option.some.injEq] at h
        simp_all
      rw [hkv]
      exact List.mem_cons_self _ _
    · rw [if_neg hk] at h
      exact List.mem_cons_of_mem _ (ih h)

/-- `ImageProvider._download_bytes` (providers.py lines 92-112): GET the URL,
`raise_for_status` (HTTP status ≥ 400 raises), return the body unchecked. -/
def ImageProvider.download_bytes (dlEnv : String → Except Unit (Nat × Bytes))
    (url : String) : Except PyErr Bytes :=
  match dlEnv url with
  | .error _ => .error .networkError
  | .ok (status, content) =>
      if 400 ≤ status then .error .networkError else .ok content

/-- Query string built by the search providers (e.g. lines 131-133):
`category`, or `category ++ " " ++ mood` when the mood is non-empty. -/
def buildQuery (category mood : String) : String :=
  if mood ≠ "" then category ++ " " ++ mood else category

/-- A network request issued by a search-then-fetch provider. -/
inductive Call where
  /-- API search against a given page with a given query string. -/
  | search (page : Nat) (query : String)
  /-- Image download from a URL. -/
  | fetch (url : String)
  deriving DecidableEq, Repr

/-- Whether a recorded request is an API search (rather than an image fetch). -/
def Call.isSearch : Call → Bool
  | .search _ _ => true
  | .fetch _ => false

/-! ## Pexels (providers.py lines 115-169) -/

/-- The `src` object of one Pexels photo (the two URL fields the code reads). -/
structure PexelsSrc where
  original : Option String
  large : Option String
  deriving DecidableEq, Repr

/-- One entry of the `photos` array; `src` may be absent (`KeyError` path). -/
structure PexelsPhoto where
  src : Option PexelsSrc
  deriving DecidableEq, Repr

/-- A Pexels search response; an absent or `null` `photos` field behaves like
`[]` under `data.get("photos")` truthiness. -/
structure PexelsData where
  photos : List PexelsPhoto
  deriving DecidableEq, Repr

/-- The tail of `PexelsProvider.download_image` (lines 163-169): take
`photos[0]`, `src.original or src.large`, download.  A missing `src` raises
the unexpected-format error; a `None` URL makes `session.get(None)` raise
client-side before any request is issued. -/
def PexelsProvider.finish (dlEnv : String → Except Unit (Nat × Bytes))
    (photos : List PexelsPhoto) (calls : List Call) :
    Except PyErr Bytes × List Call :=
  match photos with
  | [] => (.error .unexpectedFormat, calls)
  | photo :: _ =>
    match photo.src with
    | none => (.error .unexpectedFormat, calls)
    | some src =>
      match pyOr src.original src.large with
      | none => (.error .networkError, calls)
      | some url => (ImageProvider.download_bytes dlEnv url, calls ++ [.fetch url])

/-- `PexelsProvider.download_image` (lines 129-169), the random page draw a
parameter.  Returns the result and the requests issued, in order. -/
def PexelsProvider.download_image (api_key : String)
    (searchEnv : Nat → Except Unit PexelsData)
    (dlEnv : String → Except Unit (Nat × Bytes))
    (page : Nat) (category mood : String) : Except PyErr Bytes × List Call :=
  let query := buildQuery category mood
  if api_key = "" then (.error .authMissing, [])
  else
    match searchEnv page with
    | .error _ => (.error .networkError, [.search page query])
    | .ok data =>
      if data.photos = [] then
        if page ≠ 1 then
          match searchEnv 1 with
          | .error _ => (.error .networkError, [.search page query, .search 1 query])
          | .ok data2 =>
            if data2.photos = [] then
              (.error .notFound, [.search page query, .search 1 query])
            else
              PexelsProvider.finish dlEnv data2.photos
                [.search page query, .search 1 query]
        else (.error .notFound, [.search page query])
      else PexelsProvider.finish dlEnv data.photos [.search page query]

/-! ## Pixabay (providers.py lines 172-228) -/

/-- One entry of the Pixabay `hits` array (the two URL fields the code reads). -/
structure PixabayHit where
  largeImageURL : Option String
  webformatURL : Option String
  deriving DecidableEq, Repr

/-- A Pixabay search response. -/
structure PixabayData where
  hits : List PixabayHit
  deriving DecidableEq, Repr

/-- The tail of `PixabayProvider.download_image` (lines 222-228):
`random.choice` one hit (draw index `ci`), `largeImageURL or webformatURL`,
download. -/
def PixabayProvider.finish (dlEnv : String → Except Unit (Nat × Bytes))
    (ci : Nat) (hits : List PixabayHit) (calls : List Call) :
    Except PyErr Bytes × List Call :=
  match hits with
  | [] => (.error .unexpectedFormat, calls)
  | h :: rest =>
    let image_data := pyChoice h rest ci
    match pyOr image_data.largeImageURL image_data.webformatURL with
    | none => (.error .networkError, calls)
    | some url => (ImageProvider.download_bytes dlEnv url, calls ++ [.fetch url])

/-- `PixabayProvider.download_image` (lines 186-228). -/
def PixabayProvider.download_image (api_key : String)
    (searchEnv : Nat → Except Unit PixabayData)
    (dlEnv : String → Except Unit (Nat × Bytes))
    (page ci : Nat) (category mood : String) : Except PyErr Bytes × List Call :=
  if api_key = "" then (.error .authMissing, [])
  else
    let query := buildQuery category mood
    match searchEnv page with
    | .error _ => (.error .networkError, [.search page query])
    | .ok data =>
      if data.hits = [] then
        if page ≠ 1 then
          match searchEnv 1 with
          | .error _ => (.error .networkError, [.search page query, .search 1 query])
          | .ok data2 =>
            if data2.hits = [] then
              (.error .notFound, [.search page query, .search 1 query])
            else
              PixabayProvider.finish dlEnv ci data2.hits
                [.search page query, .search 1 query]
        else (.error .notFound, [.search page query])
      else PixabayProvider.finish dlEnv ci data.hits [.search page query]

/-! ## Python `int()` -/

/-- Value of a non-empty all-digit character list. -/
def digitsVal (ds : List Char) : Option Nat :=
  if ds = [] then none
  else if ds.all (·.isDigit) then
    some (ds.foldl (fun acc c => acc * 10 + (c.toNat - '0'.toNat)) 0)
  else none

/-- Python `int(s)` on a decimal string: optional surrounding spaces, optional
sign, at least one digit (`none` models the `ValueError`; digit-group
underscores, which none of the repository's inputs use, are not modelled). -/
def pyInt (s : String) : Option Int :=
  let chars := ((s.toList.dropWhile (· = ' ')).reverse.dropWhile (· = ' ')).reverse
  match chars with
  | '-' :: ds => (digitsVal ds).map (fun n => -(n : Int))
  | '+' :: ds => (digitsVal ds).map (fun n => (n : Int))
  | ds => (digitsVal ds).map (fun n => (n : Int))

/-! ## Unsplash (providers.py lines 357-413) -/

/-- Instance state of `UnsplashProvider` (`__init__`, lines 359-363). -/
structure UnsplashProvider where
  api_url : String
  api_key : String
  orientation : String
  deriving DecidableEq, Repr

/-- `UnsplashProvider.__init__` with the credential lookup made explicit. -/
def UnsplashProvider.init (api_key : String) : UnsplashProvider :=
  { api_url := "https://api.unsplash.com/photos/random"
    api_key := api_key
    orientation := "landscape" }

/-- `UnsplashProvider.set_resolution` (lines 371-384): parse `"WxH"` and store
the derived orientation on the instance; a `ValueError` from `int()` is
swallowed, leaving the state unchanged. -/
def UnsplashProvider.set_resolution (self : UnsplashProvider)
    (resolution : String) : UnsplashProvider :=
  if resolution.toList.contains 'x' then
    match strSplitOn (strLower resolution) 'x' with
    | p0 :: p1 :: _ =>
      match pyInt p0, pyInt p1 with
      | some width, some height =>
        if width > height then { self with orientation := "landscape" }
        else if height > width then { self with orientation := "portrait" }
        else { self with orientation := "squarish" }
      | _, _ => self
    | _ => self
  else self

/-- The orientation hint as a pure function of the resolution string alone:
`some o` when parsing succeeds, `none` when `set_resolution` would leave the
stored field untouched.  (Stated from the spec's purity wording, for
comparison with the stateful `set_resolution` above.) -/
def unsplashOrientationHint (resolution : String) : Option String :=
  if resolution.toList.contains 'x' then
    match strSplitOn (strLower resolution) 'x' with
    | p0 :: p1 :: _ =>
      match pyInt p0, pyInt p1 with
      | some width, some height =>
        some (if width > height then "landscape"
              else if height > width then "portrait" else "squarish")
      | _, _ => none
    | _ => none
  else none

/-- The query parameters of `UnsplashProvider.download_image` (lines 398-400). -/
structure UnsplashParams where
  orientation : String
  client_id : String
  query : Option String
  deriving DecidableEq, Repr

/-- Parameter construction of `UnsplashProvider.download_image`
(lines 394-400): the `query` parameter is present only when the built query is
non-empty and does not lowercase to `"random"`. -/
def UnsplashProvider.build_params (orientation api_key category mood : String) :
    UnsplashParams :=
  let query := buildQuery category mood
  { orientation := orientation
    client_id := api_key
    query := if query ≠ "" && strLower query ≠ "random" then some query else none }

/-! ## Wallhaven (providers.py lines 416-473) -/

/-- Instance state of `WallhavenProvider` (`__init__`, lines 419-423). -/
structure WallhavenProvider where
  api_url : String
  api_key : String
  ratios : String
  deriving DecidableEq, Repr

/-- `WallhavenProvider.__init__` with the credential lookup made explicit. -/
def WallhavenProvider.init (api_key : String) : WallhavenProvider :=
  { api_url := "https://wallhaven.cc/api/v1/search"
    api_key := api_key
    ratios := "" }

/-- `WallhavenProvider.set_resolution` (lines 431-442): store the reduced
aspect ratio on the instance.  Only `ValueError` is caught; `width // gcd`
with `width = height = 0` raises an uncaught `ZeroDivisionError`, modelled as
`.error ()`.  Python `//` is floor division (`Int.fdiv`). -/
def WallhavenProvider.set_resolution (self : WallhavenProvider)
    (resolution : String) : Except Unit WallhavenProvider :=
  if resolution.toList.contains 'x' then
    match strSplitOn (strLower resolution) 'x' with
    | p0 :: p1 :: _ =>
      match pyInt p0, pyInt p1 with
      | some width, some height =>
        let gcd_val : Int := (Int.gcd width height : Nat)
        if gcd_val = 0 then .error ()
        else
          let w_ratio := Int.fdiv width gcd_val
          let h_ratio := Int.fdiv height gcd_val
          .ok { self with ratios := toString w_ratio ++ "x" ++ toString h_ratio }
      | _, _ => .ok self
    | _ => .ok self
  else .ok self

/-- The ratios hint as a pure function of the resolution string alone
(`.error ()` for the `ZeroDivisionError` input, `some r` when a ratio is
derived, `none` when the field would be left untouched). -/
def wallhavenRatiosHint (resolution : String) : Except Unit (Option String) :=
  if resolution.toList.contains 'x' then
    match strSplitOn (strLower resolution) 'x' with
    | p0 :: p1 :: _ =>
      match pyInt p0, pyInt p1 with
      | some width, some height =>
        let gcd_val : Int := (Int.gcd width height : Nat)
        if gcd_val = 0 then .error ()
        else
          .ok (some (toString (Int.fdiv width gcd_val) ++ "x" ++
                toString (Int.fdiv height gcd_val)))
      | _, _ => .ok none
    | _ => .ok none
  else .ok none

/-! ## waifu.im (providers.py lines 231-293) -/

/-- The static category→tags table of `WaifuImProvider._map_category_to_tags`
(lines 271-282), in insertion order. -/
def WaifuImProvider.tag_map : List (String × List String) :=
  [("nature", ["waifu"]), ("anime", ["waifu"]), ("waifu", ["waifu"]),
   ("maid", ["maid"]), ("miko", ["miko"]), ("oppai", ["oppai"]),
   ("uniform", ["uniform"]), ("kitsune", ["waifu"]), ("demon", ["demon"]),
   ("elf", ["elf"])]

/-- `WaifuImProvider._map_category_to_tags` (lines 268-293): exact lowercase
lookup, then first key contained in the category as a substring (iteration in
insertion order), else the default `["waifu"]`. -/
def WaifuImProvider.map_category_to_tags (category : String) : List String :=
  let category_lower := strLower category
  match dictGet WaifuImProvider.tag_map category_lower with
  | some tags => tags
  | none =>
    match WaifuImProvider.tag_map.find?
        (fun kv => strContains category_lower kv.1) with
    | some kv => kv.2
    | none => ["waifu"]

/-- The query parameters of `WaifuImProvider.download_image` (lines 249-253). -/
structure WaifuImParams where
  included_tags : String
  is_nsfw : String
  orientation : String
  deriving DecidableEq, Repr

/-- Parameter construction of `WaifuImProvider.download_image`
(lines 246-253). -/
def WaifuImProvider.build_params (category : String) : WaifuImParams :=
  { included_tags :=
      String.intercalate "," (WaifuImProvider.map_category_to_tags category)
    is_nsfw := "false"
    orientation := "landscape" }

/-- One entry of the waifu.im `images` array. -/
structure WaifuImImage where
  url : Option String
  deriving DecidableEq, Repr

/-- A waifu.im search response. -/
structure WaifuImData where
  images : List WaifuImImage
  deriving DecidableEq, Repr

/-- `WaifuImProvider.download_image` (lines 244-266); records the parameters of
the search request it issues. -/
def WaifuImProvider.download_image
    (fetchEnv : WaifuImParams → Except Unit WaifuImData)
    (dlEnv : String → Except Unit (Nat × Bytes))
    (category mood : String) : Except PyErr Bytes × List WaifuImParams :=
  let params := WaifuImProvider.build_params category
  match fetchEnv params with
  | .error _ => (.error .networkError, [params])
  | .ok data =>
    match data.images with
    | [] => (.error .notFound, [params])
    | img :: _ =>
      match img.url with
      | none => (.error .unexpectedFormat, [params])
      | some url => (ImageProvider.download_bytes dlEnv url, [params])

/-! ## The Met (providers.py lines 664-723) -/

/-- What `MetMuseumProvider._check_object` observes of one probe request: a
transport error / JSON decode failure (all caught by `except Exception`), or a
status code with the `primaryImage` and `title` fields of the decoded object. -/
inductive ProbeResp where
  | err
  | resp (status : Nat) (primaryImage : Option String) (title : Option String)
  deriving DecidableEq, Repr

/-- `MetMuseumProvider._check_object` (lines 678-693): `None` for an errored
probe, a non-200 status, or a missing/empty `primaryImage`; otherwise the
image URL with the title (`"Unknown"` when absent). -/
def MetMuseumProvider.check_object : ProbeResp → Option (String × String)
  | .err => none
  | .resp status primaryImage title =>
    if status ≠ 200 then none
    else
      match primaryImage with
      | none => none
      | some url => if url = "" then none else some (url, title.getD "Unknown")

/-- The `as_completed` loop of the Met race (lines 714-721): outcomes are given
in completion order; the first valid outcome wins and only its image is
fetched, invalid outcomes are skipped, and an exhausted pool raises. -/
def MetMuseumProvider.race (dlEnv : String → Except Unit (Nat × Bytes)) :
    List (Option (String × String)) → Except PyErr Bytes
  | [] => .error .noValidCandidate
  | none :: rest => MetMuseumProvider.race dlEnv rest
  | some (url, _) :: _ => ImageProvider.download_bytes dlEnv url

/-- The Met search response: the `objectIDs` field, which may be absent or
`null` (`data.get("objectIDs", [])`). -/
structure MetSearchData where
  objectIDs : Option (List Nat)
  deriving DecidableEq, Repr

/-- Search query of `MetMuseumProvider.download_image` (line 696). -/
def MetMuseumProvider.query_of (category : String) : String :=
  if strLower category ≠ "random" then category else "painting"

/-- `MetMuseumProvider.download_image` (lines 695-723).  `sample` is the list
of candidate ids drawn by `random.sample`, given in the order `as_completed`
yields their probes; `probeEnv` gives each object probe's response. -/
def MetMuseumProvider.download_image
    (searchEnv : String → Except Unit MetSearchData)
    (probeEnv : Nat → ProbeResp)
    (dlEnv : String → Except Unit (Nat × Bytes))
    (sample : List Nat) (category mood : String) : Except PyErr Bytes :=
  let query := MetMuseumProvider.query_of category
  match searchEnv query with
  | .error _ => .error .networkError
  | .ok data =>
    let object_ids := data.objectIDs.getD []
    if object_ids = [] then .error .notFound
    else
      MetMuseumProvider.race dlEnv
        (sample.map (fun oid => MetMuseumProvider.check_object (probeEnv oid)))

/-! ## Waifu.pics (providers.py lines 2202-2237) -/

/-- A Waifu.pics response: the single `url` field the code reads. -/
structure WaifuPicsData where
  url : Option String
  deriving DecidableEq, Repr

/-- The endpoint category of `WaifuPicsProvider.download_image`
(lines 2216-2218). -/
def WaifuPicsProvider.cat_of (category : String) : String :=
  let cat := strLower category
  if cat = "random" then "waifu" else cat

/-- The tail of `WaifuPicsProvider.download_image` (lines 2233-2237). -/
def WaifuPicsProvider.finish (dlEnv : String → Except Unit (Nat × Bytes))
    (data : WaifuPicsData) : Except PyErr Bytes :=
  match data.url with
  | none => .error .noImageUrl
  | some url =>
    if url = "" then .error .noImageUrl
    else ImageProvider.download_bytes dlEnv url

/-- `WaifuPicsProvider.download_image` (lines 2215-2237): on a failed fetch
(`RuntimeError` from `_fetch_json`) for a non-`"waifu"` category it silently
retries the canonical `/waifu` endpoint once; records the endpoint URLs
fetched, in order. -/
def WaifuPicsProvider.download_image
    (fetchEnv : String → Except Unit WaifuPicsData)
    (dlEnv : String → Except Unit (Nat × Bytes))
    (category mood : String) : Except PyErr Bytes × List String :=
  let cat := WaifuPicsProvider.cat_of category
  let url := "https://api.waifu.pics/sfw/" ++ cat
  match fetchEnv url with
  | .ok data => (WaifuPicsProvider.finish dlEnv data, [url])
  | .error _ =>
    if cat ≠ "waifu" then
      let url2 := "https://api.waifu.pics/sfw/waifu"
      match fetchEnv url2 with
      | .ok data => (WaifuPicsProvider.finish dlEnv data, [url, url2])
      | .error _ => (.error .networkError, [url, url2])
    else (.error .networkError, [url])

/-! ## Library of Congress (providers.py lines 2834-2904) -/

/-- One LoC result item: the `image_url` URL list (absent models a missing
key) and the `title`. -/
structure LocItem where
  image_url : Option (List String)
  title : Option String
  deriving DecidableEq, Repr

/-- A LoC search response. -/
structure LocData where
  results : List LocItem
  deriving DecidableEq, Repr

/-- Best image URL for one LoC item (lines 2888-2893): the first URL, searched
from the end of the list, whose lowercase form ends in `.jpg`, `.jpeg` or
`.png`. -/
def LibraryOfCongressProvider.best_url (urls : List String) : Option String :=
  urls.reverse.find? (fun u =>
    strEndsWith (strLower u) ".jpg" || strEndsWith (strLower u) ".jpeg" ||
      strEndsWith (strLower u) ".png")

/-- The valid-image filter of lines 2877-2896: items with a present, non-empty
`image_url` list and a usable best URL. -/
def LibraryOfCongressProvider.valid_images (results : List LocItem) :
    List (String × String) :=
  results.filterMap (fun item =>
    match item.image_url with
    | none => none
    | some urls =>
      if urls = [] then none
      else
        (LibraryOfCongressProvider.best_url urls).map
          (fun u => (u, item.title.getD "Unknown")))

/-- Search query of `LibraryOfCongressProvider.download_image` (line 2853). -/
def LibraryOfCongressProvider.query_of (category : String) : String :=
  if strLower category ≠ "random" then category else "history"

/-- The tail of `LibraryOfCongressProvider.download_image` (lines 2872-2904):
fail on an empty result set, filter for valid images, `random.choice` one
(draw index `ci`) and download it. -/
def LibraryOfCongressProvider.finish (dlEnv : String → Except Unit (Nat × Bytes))
    (ci : Nat) (data : LocData) : Except PyErr Bytes :=
  match data.results with
  | [] => .error .notFound
  | _ :: _ =>
    match LibraryOfCongressProvider.valid_images data.results with
    | [] => .error .notFound
    | v :: vs => ImageProvider.download_bytes dlEnv (pyChoice v vs ci).1

/-- `LibraryOfCongressProvider.download_image` (lines 2847-2904): the random
page draw is the parameter `page`; a failed fetch (`RuntimeError` from
`_fetch_json`) of a page ≠ 1 falls back to page 1 once.  Records the page
numbers fetched, in order. -/
def LibraryOfCongressProvider.download_image
    (fetchEnv : String → Nat → Except Unit LocData)
    (dlEnv : String → Except Unit (Nat × Bytes))
    (page ci : Nat) (category mood : String) : Except PyErr Bytes × List Nat :=
  let q := LibraryOfCongressProvider.query_of category
  match fetchEnv q page with
  | .ok data => (LibraryOfCongressProvider.finish dlEnv ci data, [page])
  | .error _ =>
    if page ≠ 1 then
      match fetchEnv q 1 with
      | .ok data => (LibraryOfCongressProvider.finish dlEnv ci data, [page, 1])
      | .error _ => (.error .networkError, [page, 1])
    else (.error .networkError, [page])

/-! ## XKCD (providers.py lines 1339-1373) -/

/-- An XKCD info response: the `num` and `img` fields the code reads. -/
structure XkcdData where
  num : Option Nat
  img : Option String
  deriving DecidableEq, Repr

/-- The XKCD current-comic endpoint (line 1344). -/
def XKCDProvider.api_url : String := "https://xkcd.com/info.0.json"

/-- `XKCDProvider.download_image` (lines 1352-1373): for `"random"` it first
fetches the current comic to learn the maximum number; any failure there (a
fetch error, a missing `num`, or `randint(1, max_num)` with `max_num < 1`,
all caught by `except Exception`) silently falls back to the current-comic
URL.  `rand` supplies the `randint(1, max_num)` draw as `1 + rand % max_num`.
Records the URLs fetched, in order. -/
def XKCDProvider.download_image (fetchEnv : String → Except Unit XkcdData)
    (dlEnv : String → Except Unit (Nat × Bytes))
    (rand : Nat) (category mood : String) : Except PyErr Bytes × List String :=
  let picked : String × List String :=
    if strLower category = "random" then
      match fetchEnv XKCDProvider.api_url with
      | .error _ => (XKCDProvider.api_url, [XKCDProvider.api_url])
      | .ok current =>
        match current.num with
        | none => (XKCDProvider.api_url, [XKCDProvider.api_url])
        | some max_num =>
          if max_num < 1 then (XKCDProvider.api_url, [XKCDProvider.api_url])
          else
            let rand_num := 1 + rand % max_num
            ("https://xkcd.com/" ++ toString rand_num ++ "/info.0.json",
             [XKCDProvider.api_url])
    else (XKCDProvider.api_url, [])
  let url := picked.1
  match fetchEnv url with
  | .error _ => (.error .networkError, picked.2 ++ [url])
  | .ok data =>
    match data.img with
    | none => (.error .noImageUrl, picked.2 ++ [url])
    | some img =>
      if img = "" then (.error .noImageUrl, picked.2 ++ [url])
      else (ImageProvider.download_bytes dlEnv img, picked.2 ++ [url])

/-! ## Randomized Meta-Source (providers.py lines 2063-2106) -/

/-- One catalogued provider as the meta-provider uses it: its `get_name()` and
its `download_image` behaviour. -/
structure ProviderSem where
  name : String
  download : String → String → Except PyErr Bytes

/-- A catalog value for stating the self-exclusion claim: either some concrete
provider, or the meta-provider's own registry entry. -/
inductive CatalogEntry where
  | provider (name : String)
  | metaSelf
  deriving DecidableEq, Repr

/-- The provider-selection step of `RandomMetaProvider.download_image`
(lines 2080-2085), generic in the catalog's value type: filter out the key
`"0"`, draw one remaining key uniformly (draw index `i`), look it up.
`none` is the "No other providers available" error. -/
def RandomMetaProvider.choose {α : Type} (providers : List (String × α))
    (i : Nat) : Option (String × α) :=
  let valid_keys := (providers.map Prod.fst).filter (· ≠ "0")
  match valid_keys with
  | [] => none
  | k :: ks =>
    let pid := pyChoice k ks i
    (dictGet providers pid).map (fun v => (pid, v))

/-- The delegation computed by `RandomMetaProvider.download_image`: the chosen
provider's name and the category and mood actually passed to it. -/
structure MetaDelegation where
  p_name : String
  target_cat : String
  target_mood : String
  deriving DecidableEq, Repr

/-- The selection and rewrite steps of `RandomMetaProvider.download_image`
(lines 2078-2105), with the three `random.choice` draws as indices `iP`, `iC`,
`iM`.  Returns the chosen provider together with what is delegated to it. -/
def RandomMetaProvider.delegate_of (providers : List (String × ProviderSem))
    (categories moods : List (String × List String)) (iP iC iM : Nat)
    (category mood : String) : Option (ProviderSem × MetaDelegation) :=
  match RandomMetaProvider.choose providers iP with
  | none => none
  | some (_, provider) =>
    let p_name := provider.name
    let target_cat :=
      if strLower category = "random" then
        match (dictGet categories p_name).getD ["Random"] with
        | [] => "Random"
        | c :: cs => pyChoice c cs iC
      else category
    let target_mood :=
      if mood = "" then
        match (dictGet moods p_name).getD [""] with
        | [] => mood
        | m :: ms => pyChoice m ms iM
      else mood
    some (provider, ⟨p_name, target_cat, target_mood⟩)

/-- `RandomMetaProvider.download_image` (lines 2078-2106): delegate to the
chosen provider with the rewritten request and return its result unchanged. -/
def RandomMetaProvider.download_image (providers : List (String × ProviderSem))
    (categories moods : List (String × List String)) (iP iC iM : Nat)
    (category mood : String) : Except PyErr Bytes :=
  match RandomMetaProvider.delegate_of providers categories moods iP iC iM
      category mood with
  | none => .error .noProviders
  | some (provider, d) => provider.download d.target_cat d.target_mood

/-! ## Helper lemmas -/

theorem pexels_finish_calls_shape
    (dlEnv : String → Except Unit (Nat × Bytes))
    (photos : List PexelsPhoto) (calls : List Call) :
    ∃ t, (PexelsProvider.finish dlEnv photos calls).2 = calls ++ t
      ∧ t.filter Call.isSearch = [] := by
  unfold PexelsProvider.finish
  split
  · exact ⟨[], by simp, rfl⟩
  · split
    · exact ⟨[], by simp, rfl⟩
    · split
      · exact ⟨[], by simp, rfl⟩
      · exact ⟨_, rfl, rfl⟩

theorem pixabay_finish_calls_shape
    (dlEnv : String → Except Unit (Nat × Bytes))
    (ci : Nat) (hits : List PixabayHit) (calls : List Call) :
    ∃ t, (PixabayProvider.finish dlEnv ci hits calls).2 = calls ++ t
      ∧ t.filter Call.isSearch = [] := by
  unfold PixabayProvider.finish
  split
  · exact ⟨[], by simp, rfl⟩
  · dsimp only
    split
    · exact ⟨[], by simp, rfl⟩
    · exact ⟨_, rfl, rfl⟩

theorem pexels_finish_ok
    (dlEnv : String → Except Unit (Nat × Bytes))
    (photo : PexelsPhoto) (rest : List PexelsPhoto) (calls : List Call)
    (src : PexelsSrc) (url : String) (status : Nat) (bs : Bytes)
    (hsrc : photo.src = some src)
    (hurl : pyOr src.original src.large = some url)
    (hdl : dlEnv url = .ok (status, bs)) (hst : status < 400) :
    (PexelsProvider.finish dlEnv (photo :: rest) calls).1 = .ok bs := by
  unfold PexelsProvider.finish
  dsimp only
  rw [hsrc]
  dsimp only
  rw [hurl]
  dsimp only
  unfold ImageProvider.download_bytes
  rw [hdl]
  dsimp only
  rw [if_neg (by omega)]

theorem pixabay_finish_ok
    (dlEnv : String → Except Unit (Nat × Bytes))
    (ci : Nat) (h0 : PixabayHit) (rest : List PixabayHit) (calls : List Call)
    (url : String) (status : Nat) (bs : Bytes)
    (hurl : pyOr (pyChoice h0 rest ci).largeImageURL
        (pyChoice h0 rest ci).webformatURL = some url)
    (hdl : dlEnv url = .ok (status, bs)) (hst : status < 400) :
    (PixabayProvider.finish dlEnv ci (h0 :: rest) calls).1 = .ok bs := by
  unfold PixabayProvider.finish
  dsimp only
  rw [hurl]
  dsimp only
  unfold ImageProvider.download_bytes
  rw [hdl]
  dsimp only
  rw [if_neg (by omega)]

/-! ## Claim theorems -/

/-- C6: for the credential-requiring sources Pexels and Pixabay, with the
credential environment variable absent (`os.getenv` defaults the key to `""`),
`download_image` fails with the missing-credential error immediately and the
list of issued requests is empty — no network call is attempted — for every
category, mood, page and random draw. -/
theorem C6_auth_missing_before_network
    (searchEnvP : Nat → Except Unit PexelsData)
    (searchEnvB : Nat → Except Unit PixabayData)
    (dlEnv : String → Except Unit (Nat × Bytes))
    (page ci : Nat) (category mood : String) :
    PexelsProvider.download_image "" searchEnvP dlEnv page category mood
        = (.error .authMissing, []) ∧
    PixabayProvider.download_image "" searchEnvB dlEnv page ci category mood
        = (.error .authMissing, []) := by
  exact ⟨rfl, rfl⟩

/-- C2 counterexample: Pexels does *not* special-case the `"random"`
sentinel — with category `"random"` (and an API key configured) the search
request it issues carries the literal string `"random"` as its query. -/
theorem C2_counterexample_pexels_sends_random :
    (PexelsProvider.download_image "KEY" (fun _ => .error ())
        (fun _ => .error ()) 3 "random" "").2 = [.search 3 "random"] := by
  rfl

/-- C2 (amended): the sentinel special-case exists only in some sources.
Unsplash omits the `query` parameter whenever the built query lowercases to
`"random"` (in particular for category `"random"` with an empty mood), while
Pexels always sends the built query — for category `"random"` the literal
string `"random"` — as the search term of its first search request. -/
theorem C2_amended_sentinel_category (orientation api_key : String) :
    ((UnsplashProvider.build_params orientation api_key "random" "").query
        = none) ∧
    (buildQuery "random" "" = "random") ∧
    (∀ (ak : String) (searchEnv : Nat → Except Unit PexelsData)
        (dlEnv : String → Except Unit (Nat × Bytes)) (page : Nat) (mood : String),
      ak ≠ "" →
      ∃ rest, (PexelsProvider.download_image ak searchEnv dlEnv page
          "random" mood).2 = .search page (buildQuery "random" mood) :: rest) := by
  refine ⟨?_, rfl, ?_⟩
  · dsimp only [UnsplashProvider.build_params]
    decide
  intro ak searchEnv dlEnv page mood hak
  simp only [PexelsProvider.download_image, if_neg hak]
  split
  · exact ⟨[], rfl⟩
  · split
    · split
      · split
        · exact ⟨[.search 1 (buildQuery "random" mood)], rfl⟩
        · split
          · exact ⟨[.search 1 (buildQuery "random" mood)], rfl⟩
          · obtain ⟨t, ht, _⟩ := pexels_finish_calls_shape dlEnv _ _
            exact ⟨_, ht⟩
      · exact ⟨[], rfl⟩
    · obtain ⟨t, ht, _⟩ := pexels_finish_calls_shape dlEnv _ _
      exact ⟨_, ht⟩

/-- C2 witness for the amended theorem, at a concrete environment. -/
theorem C2_amended_witness :
    ∃ rest, (PexelsProvider.download_image "K" (fun _ => .error ())
        (fun _ => .error ()) 2 "random" "").2
      = .search 2 (buildQuery "random" "") :: rest :=
  (C2_amended_sentinel_category "landscape" "K").2.2 "K" _ _ 2 "" (by decide)

/-- C5 counterexample: a successful resolve may return an *empty* byte
payload.  With the upstream search returning one well-formed photo and the
image GET answering HTTP 200 with an empty body, Pexels' `download_image`
succeeds with zero bytes; the claimed non-emptiness does not hold (and the
returned value is bare bytes, carrying no source name). -/
theorem C5_counterexample_empty_payload :
    (PexelsProvider.download_image "KEY"
        (fun _ => .ok ⟨[⟨some ⟨some "https://img.example/u.jpg", none⟩⟩]⟩)
        (fun _ => .ok (200, []))
        1 "nature" "").1 = .ok [] := by
  rfl

/-- C5 (amended): a successful resolve returns exactly the byte payload
fetched from the producing source's image URL — unchecked, hence possibly
empty — and the Meta-Source returns its delegate's result unchanged; no
source name accompanies the returned bytes. -/
theorem C5_amended_payload_passthrough :
    (∀ (dlEnv : String → Except Unit (Nat × Bytes)) url status content,
      dlEnv url = .ok (status, content) → status < 400 →
      ImageProvider.download_bytes dlEnv url = .ok content) ∧
    (∀ providers categories moods iP iC iM category mood provider d,
      RandomMetaProvider.delegate_of providers categories moods iP iC iM
          category mood = some (provider, d) →
      RandomMetaProvider.download_image providers categories moods iP iC iM
          category mood = provider.download d.target_cat d.target_mood) := by
  constructor
  · intro dlEnv url status content h hlt
    unfold ImageProvider.download_bytes
    rw [h]
    dsimp only
    rw [if_neg (by omega)]
  · intro providers categories moods iP iC iM category mood provider d h
    unfold RandomMetaProvider.download_image
    rw [h]

/-- C5 witness for the amended theorem, at a concrete environment. -/
theorem C5_amended_witness :
    ImageProvider.download_bytes (fun _ => .ok (200, [5, 6])) "https://u"
      = .ok [5, 6] :=
  C5_amended_payload_passthrough.1 (fun _ => .ok (200, [5, 6])) "https://u"
    200 [5, 6] rfl (by decide)

/-- C4: pagination fallback for the search-then-fetch sources Pexels and
Pixabay.  If the search on the randomized page `page ≠ 1` yields an empty
result set, then: (a) exactly two search calls are issued — `page`, then the
canonical page 1 — never a retry loop; (b) when the fallback page's result set
is non-empty and the image fetch succeeds, the resolve succeeds with the
fallback page's data; (c) when the fallback page is also empty, the resolve
fails with the not-found error. -/
theorem C4_pagination_fallback
    (api_key : String) (hk : api_key ≠ "")
    (dlEnv : String → Except Unit (Nat × Bytes))
    (page : Nat) (hp : page ≠ 1) (category mood : String) :
    (∀ (searchEnv : Nat → Except Unit PexelsData) d1,
      searchEnv page = .ok d1 → d1.photos = [] →
      ((PexelsProvider.download_image api_key searchEnv dlEnv page category
          mood).2.filter Call.isSearch
        = [.search page (buildQuery category mood),
           .search 1 (buildQuery category mood)]) ∧
      (∀ d2 photo rest src url status bs,
        searchEnv 1 = .ok d2 → d2.photos = photo :: rest →
        photo.src = some src → pyOr src.original src.large = some url →
        dlEnv url = .ok (status, bs) → status < 400 →
        (PexelsProvider.download_image api_key searchEnv dlEnv page category
            mood).1 = .ok bs) ∧
      (∀ d2, searchEnv 1 = .ok d2 → d2.photos = [] →
        (PexelsProvider.download_image api_key searchEnv dlEnv page category
            mood).1 = .error .notFound)) ∧
    (∀ (searchEnv : Nat → Except Unit PixabayData) (ci : Nat) d1,
      searchEnv page = .ok d1 → d1.hits = [] →
      ((PixabayProvider.download_image api_key searchEnv dlEnv page ci category
          mood).2.filter Call.isSearch
        = [.search page (buildQuery category mood),
           .search 1 (buildQuery category mood)]) ∧
      (∀ d2 h0 rest url status bs,
        searchEnv 1 = .ok d2 → d2.hits = h0 :: rest →
        pyOr (pyChoice h0 rest ci).largeImageURL
            (pyChoice h0 rest ci).webformatURL = some url →
        dlEnv url = .ok (status, bs) → status < 400 →
        (PixabayProvider.download_image api_key searchEnv dlEnv page ci category
            mood).1 = .ok bs) ∧
      (∀ d2, searchEnv 1 = .ok d2 → d2.hits = [] →
        (PixabayProvider.download_image api_key searchEnv dlEnv page ci category
            mood).1 = .error .notFound)) := by
  constructor
  · intro searchEnv d1 h1 hempty
    refine ⟨?_, ?_, ?_⟩
    · simp only [PexelsProvider.download_image, if_neg hk, h1]
      rw [if_pos hempty, if_pos hp]
      cases h2 : searchEnv 1 with
      | error e => simp [Call.isSearch]
      | ok d2 =>
        dsimp only
        by_cases h2e : d2.photos = []
        · rw [if_pos h2e]
          simp [Call.isSearch]
        · rw [if_neg h2e]
          obtain ⟨t, ht, htf⟩ := pexels_finish_calls_shape dlEnv d2.photos
            [.search page (buildQuery category mood),
             .search 1 (buildQuery category mood)]
          rw [ht, List.filter_append, htf, List.append_nil]
          simp [Call.isSearch]
    · intro d2 photo rest src url status bs h2 hph hsrc hurl hdl hst
      simp only [PexelsProvider.download_image, if_neg hk, h1]
      rw [if_pos hempty, if_pos hp, h2]
      dsimp only
      rw [if_neg (by rw [hph]; simp), hph]
      exact pexels_finish_ok dlEnv photo rest _ src url status bs
        hsrc hurl hdl hst
    · intro d2 h2 h2e
      simp only [PexelsProvider.download_image, if_neg hk, h1]
      rw [if_pos hempty, if_pos hp, h2]
      dsimp only
      rw [if_pos h2e]
  · intro searchEnv ci d1 h1 hempty
    refine ⟨?_, ?_, ?_⟩
    · simp only [PixabayProvider.download_image, if_neg hk, h1]
      rw [if_pos hempty, if_pos hp]
      cases h2 : searchEnv 1 with
      | error e => simp [Call.isSearch]
      | ok d2 =>
        dsimp only
        by_cases h2e : d2.hits = []
        · rw [if_pos h2e]
          simp [Call.isSearch]
        · rw [if_neg h2e]
          obtain ⟨t, ht, htf⟩ := pixabay_finish_calls_shape dlEnv ci d2.hits
            [.search page (buildQuery category mood),
             .search 1 (buildQuery category mood)]
          rw [ht, List.filter_append, htf, List.append_nil]
          simp [Call.isSearch]
    · intro d2 h0 rest url status bs h2 hh hurl hdl hst
      simp only [PixabayProvider.download_image, if_neg hk, h1]
      rw [if_pos hempty, if_pos hp, h2]
      dsimp only
      rw [if_neg (by rw [hh]; simp), hh]
      exact pixabay_finish_ok dlEnv ci h0 rest _ url status bs hurl hdl hst
    · intro d2 h2 h2e
      simp only [PixabayProvider.download_image, if_neg hk, h1]
      rw [if_pos hempty, if_pos hp, h2]
      dsimp only
      rw [if_pos h2e]

/-- A concrete Pexels search environment for the C4 witness: the randomized
page is empty, page 1 has one well-formed photo. -/
def c4envP : Nat → Except Unit PexelsData :=
  fun p => if p = 1
    then .ok ⟨[⟨some ⟨some "https://img.example/u.jpg", none⟩⟩]⟩
    else .ok ⟨[]⟩

/-- A concrete Pixabay search environment for the C4 witness. -/
def c4envB : Nat → Except Unit PixabayData :=
  fun p => if p = 1
    then .ok ⟨[⟨some "https://img.example/u.jpg", none⟩]⟩
    else .ok ⟨[]⟩

/-- A concrete image-download environment for the C4 witness. -/
def c4dl : String → Except Unit (Nat × Bytes) := fun _ => .ok (200, [1])

/-- C4 witness at a concrete environment: page 7 empty, page 1 non-empty. -/
theorem C4_pagination_fallback_witness :
    ((PexelsProvider.download_image "K" c4envP c4dl 7 "nature" "").2.filter
        Call.isSearch = [.search 7 "nature", .search 1 "nature"]) ∧
    ((PexelsProvider.download_image "K" c4envP c4dl 7 "nature" "").1 = .ok [1]) ∧
    ((PixabayProvider.download_image "K" c4envB c4dl 7 0 "nature" "").1
        = .ok [1]) := by
  obtain ⟨hpex, hpix⟩ := C4_pagination_fallback "K" (by decide) c4dl 7 (by decide)
    "nature" ""
  obtain ⟨ha, hb, hc⟩ := hpex c4envP ⟨[]⟩ rfl rfl
  obtain ⟨ha2, hb2, hc2⟩ := hpix c4envB 0 ⟨[]⟩ rfl rfl
  refine ⟨ha, ?_, ?_⟩
  · exact hb ⟨[⟨some ⟨some "https://img.example/u.jpg", none⟩⟩]⟩
      ⟨some ⟨some "https://img.example/u.jpg", none⟩⟩ [] _
      "https://img.example/u.jpg" 200 [1] rfl rfl rfl rfl rfl (by decide)
  · exact hb2 ⟨[⟨some "https://img.example/u.jpg", none⟩]⟩
      ⟨some "https://img.example/u.jpg", none⟩ [] "https://img.example/u.jpg"
      200 [1] rfl rfl rfl rfl (by decide)

theorem MetMuseumProvider.race_all_none
    (dlEnv : String → Except Unit (Nat × Bytes))
    (outcomes : List (Option (String × String)))
    (h : ∀ o ∈ outcomes, o = none) :
    MetMuseumProvider.race dlEnv outcomes = .error .noValidCandidate := by
  induction outcomes with
  | nil => rfl
  | cons o rest ih =>
    have ho : o = none := h o (List.mem_cons_self _ _)
    subst ho
    simp only [MetMuseumProvider.race]
    exact ih (fun o hmem => h o (List.mem_cons_of_mem _ hmem))

/-- C3: in the Met candidate race, a probe that errors or times out and a
probe answered with a non-200 status are `Invalid` (`none`) rather than fatal;
an `Invalid` outcome does not abort the race, which simply continues with the
remaining pool; and a pool in which every probed candidate is `Invalid` makes
the whole call fail with the no-valid-candidate error rather than return any
partial result. -/
theorem C3_race_invalid_handling :
    (MetMuseumProvider.check_object .err = none) ∧
    (∀ status primaryImage title, status ≠ 200 →
      MetMuseumProvider.check_object (.resp status primaryImage title) = none) ∧
    (∀ (dlEnv : String → Except Unit (Nat × Bytes)) rest,
      MetMuseumProvider.race dlEnv (none :: rest)
        = MetMuseumProvider.race dlEnv rest) ∧
    (∀ (searchEnv : String → Except Unit MetSearchData)
        (probeEnv : Nat → ProbeResp)
        (dlEnv : String → Except Unit (Nat × Bytes))
        (sample : List Nat) (category mood : String) data,
      searchEnv (MetMuseumProvider.query_of category) = .ok data →
      data.objectIDs.getD [] ≠ [] →
      (∀ oid ∈ sample, MetMuseumProvider.check_object (probeEnv oid) = none) →
      MetMuseumProvider.download_image searchEnv probeEnv dlEnv sample category
          mood = .error .noValidCandidate) := by
  refine ⟨rfl, ?_, ?_, ?_⟩
  · intro status primaryImage title hs
    unfold MetMuseumProvider.check_object
    dsimp only
    rw [if_pos hs]
  · intro dlEnv rest
    simp only [MetMuseumProvider.race]
  · intro searchEnv probeEnv dlEnv sample category mood data hs hne hall
    unfold MetMuseumProvider.download_image
    dsimp only
    rw [hs]
    dsimp only
    rw [if_neg hne]
    refine MetMuseumProvider.race_all_none dlEnv _ ?_
    intro o ho
    obtain ⟨oid, hoid, rfl⟩ := List.mem_map.mp ho
    exact hall oid hoid

/-- C3 witness: a concrete pool of three candidates whose probes are an
errored probe, a 404 probe and a 200 probe lacking `primaryImage` — every
probe is `Invalid` and the call fails with the no-valid-candidate error. -/
theorem C3_race_invalid_handling_witness :
    MetMuseumProvider.download_image
      (fun _ => .ok ⟨some [11, 12, 13]⟩)
      (fun oid => if oid = 11 then .err
        else if oid = 12 then .resp 404 (some "https://img.example/a") (some "T")
        else .resp 200 none (some "T"))
      (fun _ => .ok (200, [1])) [11, 12, 13] "paintings" ""
      = .error .noValidCandidate := by
  refine C3_race_invalid_handling.2.2.2 _ _ _ _ _ _ ⟨some [11, 12, 13]⟩ rfl
    (by decide) ?_
  intro oid hoid
  fin_cases hoid <;> rfl

theorem WaifuImProvider.tag_map_values_nonempty :
    ∀ kv ∈ WaifuImProvider.tag_map, kv.2 ≠ [] := by decide

theorem WaifuImProvider.map_category_to_tags_nonempty (category : String) :
    WaifuImProvider.map_category_to_tags category ≠ [] := by
  unfold WaifuImProvider.map_category_to_tags
  dsimp only
  cases hlook : dictGet WaifuImProvider.tag_map (strLower category) with
  | some tags =>
    exact WaifuImProvider.tag_map_values_nonempty _ (dictGet_mem hlook)
  | none =>
    cases hfind : WaifuImProvider.tag_map.find?
        (fun kv => strContains (strLower category) kv.1) with
    | some kv =>
      exact WaifuImProvider.tag_map_values_nonempty _
        (List.mem_of_find?_eq_some hfind)
    | none => simp

/-- C10: waifu.im never requests NSFW content: for every category and mood
the single search request it issues carries exactly the built parameters,
whose `is_nsfw` is the literal `"false"` and whose `included_tags` is the
comma-join of a non-empty tag list; a category recognized neither exactly nor
as a substring defaults to `["waifu"]`. -/
theorem C10_waifu_im_always_sfw
    (fetchEnv : WaifuImParams → Except Unit WaifuImData)
    (dlEnv : String → Except Unit (Nat × Bytes)) (category mood : String) :
    ((WaifuImProvider.download_image fetchEnv dlEnv category mood).2
        = [WaifuImProvider.build_params category]) ∧
    ((WaifuImProvider.build_params category).is_nsfw = "false") ∧
    ((WaifuImProvider.build_params category).included_tags
        = String.intercalate ","
            (WaifuImProvider.map_category_to_tags category)) ∧
    (WaifuImProvider.map_category_to_tags category ≠ []) ∧
    (dictGet WaifuImProvider.tag_map (strLower category) = none →
      WaifuImProvider.tag_map.find?
          (fun kv => strContains (strLower category) kv.1) = none →
      WaifuImProvider.map_category_to_tags category = ["waifu"]) := by
  refine ⟨?_, rfl, rfl,
    WaifuImProvider.map_category_to_tags_nonempty category, ?_⟩
  · unfold WaifuImProvider.download_image
    dsimp only
    cases h : fetchEnv (WaifuImProvider.build_params category) with
    | error e => rfl
    | ok data =>
      dsimp only
      cases hi : data.images with
      | nil => rfl
      | cons img rest =>
        dsimp only
        cases hu : img.url with
        | none => rfl
        | some u => rfl
  · intro h1 h2
    unfold WaifuImProvider.map_category_to_tags
    dsimp only
    rw [h1, h2]

/-- C10 witness: the unrecognized category `"zzz"` defaults to `["waifu"]`. -/
theorem C10_waifu_im_always_sfw_witness :
    WaifuImProvider.map_category_to_tags "zzz" = ["waifu"] :=
  (C10_waifu_im_always_sfw (fun _ => .error ()) (fun _ => .error ())
    "zzz" "").2.2.2.2 (by decide) (by decide)

/-- A fetch environment for the C7 counterexample: the `/sfw/nature` endpoint
fails with a transport error, the canonical `/sfw/waifu` endpoint succeeds. -/
def c7fetch : String → Except Unit WaifuPicsData :=
  fun u => if u = "https://api.waifu.pics/sfw/waifu"
    then .ok ⟨some "https://i.example/w.png"⟩ else .error ()

/-- An image-download environment used by the C7 theorems. -/
def c7dl : String → Except Unit (Nat × Bytes) := fun _ => .ok (200, [7])

/-- C7 counterexample: a source retries after a *network-kind* failure.  With
the first WaifuPics fetch failing with a transport error (not an empty result
page), the provider silently issues a second fetch to the canonical `/waifu`
endpoint and succeeds — contradicting "for every other failure kind it
performs no retry and no silent fallback". -/
theorem C7_counterexample_retry_on_network_error :
    (WaifuPicsProvider.download_image c7fetch c7dl "nature" ""
      = (.ok [7], ["https://api.waifu.pics/sfw/nature",
                   "https://api.waifu.pics/sfw/waifu"])) ∧
    c7fetch "https://api.waifu.pics/sfw/nature" = .error () := ⟨rfl, rfl⟩

/-- C7 (amended): local retries are at most one per resolve, but they are not
limited to the empty-randomized-page case: (a) WaifuPics issues at most two
fetches, and (b) when the category already maps to `"waifu"` a failed fetch
propagates unchanged with no retry; (c) Library of Congress retries page 1
exactly once when the fetch of a randomized page ≠ 1 *fails* (not only when it
is empty), and propagates the failure of page 1 itself with no retry;
(d) XKCD, during `"random"` selection, silently falls back to the current
comic when the current-comic probe fails, fetching it exactly once more. -/
theorem C7_amended_local_retry_policy :
    (∀ (fetchEnv : String → Except Unit WaifuPicsData)
        (dlEnv : String → Except Unit (Nat × Bytes)) category mood,
      (WaifuPicsProvider.download_image fetchEnv dlEnv category
          mood).2.length ≤ 2) ∧
    (∀ (fetchEnv : String → Except Unit WaifuPicsData)
        (dlEnv : String → Except Unit (Nat × Bytes)) category mood,
      WaifuPicsProvider.cat_of category = "waifu" →
      fetchEnv ("https://api.waifu.pics/sfw/" ++ WaifuPicsProvider.cat_of
          category) = .error () →
      WaifuPicsProvider.download_image fetchEnv dlEnv category mood
        = (.error .networkError, ["https://api.waifu.pics/sfw/waifu"])) ∧
    (∀ (fetchEnv : String → Nat → Except Unit LocData)
        (dlEnv : String → Except Unit (Nat × Bytes)) page ci category mood,
      fetchEnv (LibraryOfCongressProvider.query_of category) page
          = .error () →
      (page ≠ 1 →
        (LibraryOfCongressProvider.download_image fetchEnv dlEnv page ci
            category mood).2 = [page, 1]) ∧
      (page = 1 →
        LibraryOfCongressProvider.download_image fetchEnv dlEnv page ci
            category mood = (.error .networkError, [1]))) ∧
    (∀ (fetchEnv : String → Except Unit XkcdData)
        (dlEnv : String → Except Unit (Nat × Bytes)) rand category mood,
      strLower category = "random" →
      fetchEnv XKCDProvider.api_url = .error () →
      (XKCDProvider.download_image fetchEnv dlEnv rand category mood).2
        = [XKCDProvider.api_url, XKCDProvider.api_url]) := by
  refine ⟨?_, ?_, ?_, ?_⟩
  · intro fetchEnv dlEnv category mood
    unfold WaifuPicsProvider.download_image
    dsimp only
    split
    · simp
    · split
      · split
        · simp
        · simp
      · simp
  · intro fetchEnv dlEnv category mood hcat herr
    unfold WaifuPicsProvider.download_image
    dsimp only
    rw [herr]
    dsimp only
    rw [hcat]
    rw [if_neg (by decide)]
    rfl
  · intro fetchEnv dlEnv page ci category mood herr
    constructor
    · intro hp
      unfold LibraryOfCongressProvider.download_image
      dsimp only
      rw [herr]
      dsimp only
      rw [if_pos hp]
      cases h2 : fetchEnv (LibraryOfCongressProvider.query_of category) 1 with
      | ok d => rfl
      | error e => rfl
    · intro hp1
      subst hp1
      unfold LibraryOfCongressProvider.download_image
      dsimp only
      rw [herr]
      dsimp only
      rw [if_neg (by decide)]
  · intro fetchEnv dlEnv rand category mood hcat herr
    unfold XKCDProvider.download_image
    dsimp only
    rw [hcat]
    rw [if_pos rfl]
    rw [herr]
    dsimp only
    rw [herr]
    rfl

/-- C7 witness for the amended theorem: concrete failing environments for
each of the WaifuPics, Library of Congress and XKCD fallback branches. -/
theorem C7_amended_local_retry_policy_witness :
    (WaifuPicsProvider.download_image (fun _ => .error ()) c7dl "waifu" ""
      = (.error .networkError, ["https://api.waifu.pics/sfw/waifu"])) ∧
    ((LibraryOfCongressProvider.download_image (fun _ _ => .error ()) c7dl 4 0
        "history" "").2 = [4, 1]) ∧
    ((XKCDProvider.download_image (fun _ => .error ()) c7dl 0 "random" "").2
      = [XKCDProvider.api_url, XKCDProvider.api_url]) := by
  refine ⟨?_, ?_, ?_⟩
  · exact C7_amended_local_retry_policy.2.1 _ c7dl "waifu" "" (by decide) rfl
  · exact (C7_amended_local_retry_policy.2.2.1 _ c7dl 4 0 "history" ""
      rfl).1 (by decide)
  · exact C7_amended_local_retry_policy.2.2.2 _ c7dl 0 "random" ""
      (by decide) rfl

/-- C9 counterexample: `set_resolution` mutates shared instance state.  A
fresh Unsplash provider stores `orientation = "landscape"`; after the call
with `"1080x1920"` the stored field reads `"portrait"`, so the instance's
fields are not all unchanged by the call. -/
theorem C9_counterexample_set_resolution_mutates :
    ((UnsplashProvider.init "K").set_resolution "1080x1920").orientation
        = "portrait" ∧
    (UnsplashProvider.init "K").orientation = "landscape" ∧
    (UnsplashProvider.init "K").set_resolution "1080x1920"
        ≠ UnsplashProvider.init "K" := by
  refine ⟨by decide, rfl, by decide⟩

/-- C9 (amended): `set_resolution` is not pure — it stores the derived hint in
a mutable instance field — but the mutation is confined to that one field and
the stored value is a function of the resolution string alone: Unsplash
updates exactly `orientation` (to the pure `unsplashOrientationHint`, keeping
the old value when parsing fails), and Wallhaven updates exactly `ratios` (to
the pure `wallhavenRatiosHint`, raising on the division-by-zero input); the
`api_url` and `api_key` fields are unchanged by every call. -/
theorem C9_amended_set_resolution_frame
    (u : UnsplashProvider) (w : WallhavenProvider) (resolution : String) :
    (u.set_resolution resolution
      = { u with orientation :=
            (unsplashOrientationHint resolution).getD u.orientation }) ∧
    (w.set_resolution resolution
      = (wallhavenRatiosHint resolution).map
          (fun h => { w with ratios := h.getD w.ratios })) := by
  constructor
  · unfold UnsplashProvider.set_resolution unsplashOrientationHint
    by_cases hx : (resolution.toList.contains 'x') = true
    · rw [if_pos hx, if_pos hx]
      rcases hs : strSplitOn (strLower resolution) 'x' with _ | ⟨p0, _ | ⟨p1, ps2⟩⟩
      · rfl
      · rfl
      · dsimp only
        rcases hw : pyInt p0 with _ | width
        · simp only [hw]
          rfl
        · rcases hh : pyInt p1 with _ | height
          · simp only [hw, hh]
            rfl
          · simp only [hw, hh]
            by_cases h1 : width > height
            · simp [h1]
            · by_cases h2 : height > width
              · simp [h1, h2]
              · simp [h1, h2]
    · rw [if_neg hx, if_neg hx]
      rfl
  · unfold WallhavenProvider.set_resolution wallhavenRatiosHint
    by_cases hx : (resolution.toList.contains 'x') = true
    · rw [if_pos hx, if_pos hx]
      rcases hs : strSplitOn (strLower resolution) 'x' with _ | ⟨p0, _ | ⟨p1, ps2⟩⟩
      · rfl
      · rfl
      · dsimp only
        rcases hw : pyInt p0 with _ | width
        · simp only [hw]
          rfl
        · rcases hh : pyInt p1 with _ | height
          · simp only [hw, hh]
            rfl
          · simp only [hw, hh]
            by_cases hg : ((Int.gcd width height : Nat) : Int) = 0
            · simp only [if_pos hg]
              rfl
            · simp only [if_neg hg]
              rfl
    · rw [if_neg hx, if_neg hx]
      rfl

/-- C1 counterexample: the self-exclusion is keyed on the literal `"0"`, not
on the meta-source's entry.  In a catalog whose meta-source entry sits under
key `"1"` (with a concrete source at `"0"`), the selection step picks the
meta-source's own entry — so "never delegates to itself, over any provider
catalog" is false. -/
theorem C1_counterexample_self_delegation :
    RandomMetaProvider.choose
      [("0", CatalogEntry.provider "Pexels"), ("1", CatalogEntry.metaSelf)] 0
      = some ("1", CatalogEntry.metaSelf) := by rfl

/-- C1 (amended): the selection excludes exactly the entry stored under the
sentinel key `"0"` (the key at which the program registers the meta-source):
the chosen key is a non-`"0"` catalog key bound to the chosen value; under
distinct keys every non-`"0"` key occupies exactly one slot of the uniform
selection list; and *provided* the meta-source's own entries all sit at key
`"0"`, the chosen entry is never the meta-source itself. -/
theorem RandomMetaProvider.choose_spec {α : Type}
    (providers : List (String × α)) (i : Nat) (k : String) (v : α)
    (h : RandomMetaProvider.choose providers i = some (k, v)) :
    k ≠ "0" ∧ dictGet providers k = some v := by
  unfold RandomMetaProvider.choose at h
  dsimp only at h
  rcases hvk : (providers.map Prod.fst).filter (· ≠ "0") with _ | ⟨k0, ks⟩ <;>
    rw [hvk] at h
  · cases h
  · dsimp only at h
    rw [Option.map_eq_some'] at h
    obtain ⟨v', hget, heq⟩ := h
    have hpid : pyChoice k0 ks i = k := congrArg Prod.fst heq
    have hv : v' = v := congrArg Prod.snd heq
    subst hv
    have hmemf : k ∈ (providers.map Prod.fst).filter (· ≠ "0") := by
      rw [hvk, ← hpid]
      exact pyChoice_mem k0 ks i
    exact ⟨of_decide_eq_true (List.mem_filter.mp hmemf).2, hpid ▸ hget⟩

theorem C1_amended_self_exclusion
    (providers : List (String × CatalogEntry)) (i : Nat)
    (k : String) (v : CatalogEntry)
    (h : RandomMetaProvider.choose providers i = some (k, v)) :
    k ≠ "0" ∧ dictGet providers k = some v ∧
    ((∀ entry ∈ providers, entry.2 = CatalogEntry.metaSelf → entry.1 = "0") →
      v ≠ CatalogEntry.metaSelf) ∧
    ((providers.map Prod.fst).Nodup → ∀ key, key ≠ "0" →
      key ∈ providers.map Prod.fst →
      ((providers.map Prod.fst).filter (· ≠ "0")).count key = 1) := by
  obtain ⟨hk0, hget⟩ := RandomMetaProvider.choose_spec providers i k v h
  refine ⟨hk0, hget, ?_, ?_⟩
  · intro hself hmeta
    exact hk0 (hself (k, v) (dictGet_mem hget) hmeta)
  · intro hn key hk hm
    rw [List.count_filter (by simpa using hk)]
    exact List.count_eq_one_of_mem hn hm

/-- C1 witness for the amended theorem: the two-entry catalog with the
meta-source at key `"0"`, draw index 0 — the chosen entry is the concrete
provider at key `"1"`, not the meta-source. -/
theorem C1_amended_self_exclusion_witness :
    (("1" : String) ≠ "0") ∧
    (CatalogEntry.provider "Pexels" ≠ CatalogEntry.metaSelf) ∧
    ((["0", "1"].filter (· ≠ "0")).count "1" = 1) := by
  obtain ⟨h1, h2, h3, h4⟩ := C1_amended_self_exclusion
    [("0", CatalogEntry.metaSelf), ("1", CatalogEntry.provider "Pexels")] 0 "1"
    (CatalogEntry.provider "Pexels") rfl
  refine ⟨h1, h3 ?_, ?_⟩
  · intro entry hmem hmeta
    simp only [List.mem_cons, List.not_mem_nil, or_false] at hmem
    rcases hmem with rfl | rfl
    · rfl
    · exact absurd hmeta (by decide)
  · exact h4 (by decide) "1" (by decide) (by decide)

/-- A concrete delegate for the C8 theorems, with display name `"X"`. -/
def c8delegate : ProviderSem :=
  { name := "X", download := fun _ _ => .error .notFound }

/-- A stub occupying the meta-source's own slot `"0"` in the C8 catalogs. -/
def c8metaStub : ProviderSem :=
  { name := "Random Source", download := fun _ _ => .error .noProviders }

/-- The category catalog for the C8 witness. -/
def c8categories : List (String × List String) := [("X", ["Cat1", "Cat2"])]

/-- C8 counterexample: with the delegate's name absent from the category
catalog, the category delegated for a `"random"` request is the hard-coded
literal `"Random"` — not drawn from (and not a member of) any category list of
the delegate, whose name has no entry in the catalog at all. -/
theorem C8_counterexample_default_category :
    ((RandomMetaProvider.delegate_of [("0", c8metaStub), ("1", c8delegate)]
        [] [] 0 0 0 "random" "").map Prod.snd
      = some ⟨"X", "Random", ""⟩) ∧
    dictGet ([] : List (String × List String)) "X" = none := ⟨rfl, rfl⟩

/-- C8 (amended): when the request's category lowercases to `"random"`, the
delegated category is a uniform `pyChoice` draw over the delegate's list in
the category catalog whenever that list is present and non-empty — hence a
member of it — while an absent delegate name makes the meta-source pass the
hard-coded `"Random"` instead; a category not lowercasing to `"random"` is
passed through unchanged. -/
theorem C8_amended_category_rewrite
    (providers : List (String × ProviderSem))
    (categories moods : List (String × List String)) (iP iC iM : Nat)
    (category mood : String) (provider : ProviderSem) (d : MetaDelegation)
    (h : RandomMetaProvider.delegate_of providers categories moods iP iC iM
        category mood = some (provider, d)) :
    (d.p_name = provider.name) ∧
    (strLower category = "random" →
      (∀ c cs, dictGet categories d.p_name = some (c :: cs) →
        d.target_cat = pyChoice c cs iC ∧ d.target_cat ∈ c :: cs) ∧
      (dictGet categories d.p_name = none → d.target_cat = "Random")) ∧
    (strLower category ≠ "random" → d.target_cat = category) := by
  unfold RandomMetaProvider.delegate_of at h
  cases hch : RandomMetaProvider.choose providers iP with
  | none => rw [hch] at h; cases h
  | some kv =>
    obtain ⟨k0, p0⟩ := kv
    rw [hch] at h
    dsimp only at h
    rw [Option.some.injEq, Prod.mk.injEq] at h
    obtain ⟨hp, hd⟩ := h
    subst hp
    subst hd
    refine ⟨rfl, ?_, ?_⟩
    · intro hrand
      rw [if_pos hrand]
      constructor
      · intro c cs hlook
        rw [hlook]
        dsimp only
        exact ⟨rfl, pyChoice_mem c cs iC⟩
      · intro hlook
        rw [hlook]
        simp [pyChoice, Nat.mod_one]
    · intro hne
      rw [if_neg hne]

/-- C8 witness for the amended theorem: category `"Random"`, delegate `"X"`
with catalog list `["Cat1", "Cat2"]`, draw index 1 — the delegated category is
the drawn member `"Cat2"`. -/
theorem C8_amended_category_rewrite_witness :
    (MetaDelegation.mk "X" "Cat2" "").target_cat = pyChoice "Cat1" ["Cat2"] 1 ∧
    (MetaDelegation.mk "X" "Cat2" "").target_cat ∈ ["Cat1", "Cat2"] := by
  have h := C8_amended_category_rewrite [("0", c8metaStub), ("1", c8delegate)]
    c8categories [] 0 1 0 "Random" "" c8delegate ⟨"X", "Cat2", ""⟩ rfl
  exact (h.2.1 (by decide)).1 "Cat1" ["Cat2"] rfl

end AutoWallpaper
